import Mathlib

/-!
Shallow embedding of the `webcam-easy` capture-session façade
(`src/webcam.ts` and `src/types.ts`) and verification of its
natural-language specification.

The façade is a single stateful class `Webcam` holding a facing mode, a
stored camera list, a list of acquired stream handles and a selected
device identifier, together with references to a display `<video>`
element and optional canvas / audio elements.  All platform collaborators
(device enumeration, media acquisition, the 2D drawing context, image
encoding) are modelled as explicit inputs or as effect logs on the
element records, so that every method becomes a pure state transformer.
-/

namespace WebcamEasy

/-- The `FacingMode` type of `types.ts`: "user" (front-facing) or
"environment" (rear-facing). -/
inductive FacingMode where
  | user
  | environment
deriving DecidableEq, Repr

/-- The string a `FacingMode` value denotes in JS (`"user"` /
`"environment"`); `start` and `stream` resolve with this string. -/
def FacingMode.toStr : FacingMode → String
  | FacingMode.user => "user"
  | FacingMode.environment => "environment"

/-- A platform `MediaDeviceInfo` record: device identifier, label and
kind marker (e.g. "videoinput", "audioinput"). -/
structure MediaDeviceInfo where
  deviceId : String
  label : String
  kind : String
deriving DecidableEq, Repr

/-- `DeviceId` of `types.ts`: an exact-device-id constraint. -/
structure DeviceId where
  exact : String
deriving DecidableEq, Repr

/-- `VideoConstraints` of `types.ts`: both keys optional; `none` models
an absent key. -/
structure VideoConstraints where
  facingMode : Option FacingMode
  deviceId : Option DeviceId
deriving DecidableEq, Repr

/-- `MediaConstraints` of `types.ts`. -/
structure MediaConstraints where
  video : VideoConstraints
  audio : Bool
deriving DecidableEq, Repr

/-- One media track of a stream; `stopped` records whether
`track.stop()` has been called on it. -/
structure MediaStreamTrack where
  trackId : Nat
  stopped : Bool
deriving DecidableEq, Repr

/-- A stream handle: an identity plus its tracks. -/
structure MediaStream where
  streamId : Nat
  tracks : List MediaStreamTrack
deriving DecidableEq, Repr

/-- The display target (`HTMLVideoElement`): the mutable attributes the
façade reads or writes.  `transform` models `style.transform`,
`srcObject` the bound stream, `playing` whether `play()` was invoked. -/
structure VideoElement where
  width : Nat
  height : Nat
  scrollWidth : Nat
  scrollHeight : Nat
  transform : String
  srcObject : Option MediaStream
  playing : Bool
deriving DecidableEq, Repr

/-- One operation performed on the canvas 2D drawing context by `snap`;
the context is modelled as the log of operations applied to it. -/
inductive CtxOp where
  | translate (x : Int) (y : Int)
  | scale (x : Int) (y : Int)
  | clearRect (x : Nat) (y : Nat) (w : Nat) (h : Nat)
  | drawImage (x : Nat) (y : Nat) (w : Nat) (h : Nat)
deriving DecidableEq, Repr

/-- The drawing surface (`HTMLCanvasElement`).  `hasContext2d` models
whether `getContext("2d")` yields a context; `ops` is the log of drawing
operations issued on that context. -/
structure CanvasElement where
  width : Nat
  height : Nat
  hasContext2d : Bool
  ops : List CtxOp
deriving DecidableEq, Repr

/-- Model of `toDataURL`: the platform encodes the surface contents; the
façade only forwards the mime type and returns the opaque result. -/
def CanvasElement.toDataURL (_c : CanvasElement) (mime : String) : String :=
  "data:" ++ mime ++ ";base64"

/-- The audio-cue surface (`HTMLAudioElement`); `played` records whether
`play()` was invoked on it. -/
structure AudioElement where
  played : Bool
deriving DecidableEq, Repr

/-- The `Webcam` session state: the private fields of the class together
with the element records it mutates. -/
structure Webcam where
  webcamElement : VideoElement
  canvasElement : Option CanvasElement
  snapSoundElement : Option AudioElement
  facingMode : FacingMode
  webcamList : List MediaDeviceInfo
  streamList : List MediaStream
  selectedDeviceId : String
deriving DecidableEq, Repr

/-- The constructor: binds the display target, defaulting `width` to 640
and `height` to 3/4 of the width when unset (JS `||` treats 0 as unset;
`width * (3 / 4)` is exact for widths divisible by 4, matching the Nat
computation here), and initialises the session fields. -/
def Webcam.init (videoElement : VideoElement) (facingMode : FacingMode)
    (canvasElement : Option CanvasElement) (snapSoundElement : Option AudioElement) :
    Webcam :=
  let w0 := if videoElement.width = 0 then 640 else videoElement.width
  let h0 := if videoElement.height = 0 then w0 * 3 / 4 else videoElement.height
  { webcamElement := { videoElement with width := w0, height := h0 }
    canvasElement := canvasElement
    snapSoundElement := snapSoundElement
    facingMode := facingMode
    webcamList := []
    streamList := []
    selectedDeviceId := "" }

/-- `getFacingMode`. -/
def Webcam.getFacingMode (w : Webcam) : FacingMode :=
  w.facingMode

/-- `setFacingMode`. -/
def Webcam.setFacingMode (w : Webcam) (facingMode : FacingMode) : Webcam :=
  { w with facingMode := facingMode }

/-- `getWebcamList`. -/
def Webcam.getWebcamList (w : Webcam) : List MediaDeviceInfo :=
  w.webcamList

/-- `getWebcamCount`. -/
def Webcam.getWebcamCount (w : Webcam) : Nat :=
  w.webcamList.length

/-- `getSelectedDeviceId`. -/
def Webcam.getSelectedDeviceId (w : Webcam) : String :=
  w.selectedDeviceId

/-- `getVideoInputs(mediaDevices)`: resets the stored camera list, pushes
every entry whose kind is "videoinput" (a `forEach` over the input list),
forces the facing mode to "user" when exactly one camera remains, and
returns the stored list. -/
def Webcam.getVideoInputs (w : Webcam) (mediaDevices : List MediaDeviceInfo) :
    Webcam × List MediaDeviceInfo :=
  let webcamList :=
    mediaDevices.foldl
      (fun acc mediaDevice =>
        if mediaDevice.kind = "videoinput" then acc.concat mediaDevice else acc)
      []
  let w := { w with webcamList := webcamList }
  let w :=
    if w.webcamList.length = 1 then { w with facingMode := FacingMode.user } else w
  (w, w.webcamList)

/-- `getMediaConstraints()`: facing-mode-keyed while no device is
selected, exact-device-id-keyed afterwards; audio always `false`. -/
def Webcam.getMediaConstraints (w : Webcam) : MediaConstraints :=
  let videoConstraints : VideoConstraints :=
    if w.selectedDeviceId = "" then
      { facingMode := some w.facingMode, deviceId := none }
    else
      { facingMode := none, deviceId := some { exact := w.selectedDeviceId } }
  { video := videoConstraints, audio := false }

/-- Model of JS `needle`-in-`haystack` matching at the head: does
`pattern` occur as a prefix of `s`? -/
def matchesAt (pattern s : List Char) : Bool :=
  match pattern, s with
  | [], _ => true
  | _ :: _, [] => false
  | p :: ps, c :: cs => p == c && matchesAt ps cs

/-- Does `pattern` occur anywhere in `s` (as a contiguous run)? -/
def subSearch (pattern : List Char) : List Char → Bool
  | [] => matchesAt pattern []
  | c :: cs => matchesAt pattern (c :: cs) || subSearch pattern cs

/-- Model of `String.prototype.includes`. -/
def strIncludes (s pattern : String) : Bool :=
  subSearch pattern.toList s.toList

/-- Model of JS `toLowerCase`: per-character lowering (`Char.toLower`
agrees with JS on the ASCII labels involved). -/
def strToLower (s : String) : String :=
  { data := s.data.map Char.toLower }

/-- The per-entry test of `selectCamera`: lower-case the label and test
for the substring "front" (facing mode "user") or "back" (facing mode
"environment"). -/
def labelMatchesFacing (facingMode : FacingMode) (webcam : MediaDeviceInfo) : Bool :=
  let label := strToLower webcam.label
  (decide (facingMode = FacingMode.user) && strIncludes label "front")
    || (decide (facingMode = FacingMode.environment) && strIncludes label "back")

/-- The `for … break` loop of `selectCamera`: the device id of the first
matching entry, or `none`. -/
def selectCameraLoop (facingMode : FacingMode) : List MediaDeviceInfo → Option String
  | [] => none
  | webcam :: rest =>
    if labelMatchesFacing facingMode webcam then some webcam.deviceId
    else selectCameraLoop facingMode rest

/-- `selectCamera()`: first label match (under the current facing mode)
sets the selected device id; no match leaves the state untouched. -/
def Webcam.selectCamera (w : Webcam) : Webcam :=
  match selectCameraLoop w.facingMode w.webcamList with
  | some deviceId => { w with selectedDeviceId := deviceId }
  | none => w

/-- `flip()`: toggle the facing mode, clear the style transform of the display target, then re-run camera selection on the stored list. -/
def Webcam.flip (w : Webcam) : Webcam :=
  let w :=
    { w with facingMode :=
        if w.facingMode = FacingMode.user then FacingMode.environment
        else FacingMode.user }
  let w := { w with webcamElement := { w.webcamElement with transform := "" } }
  w.selectCamera

/-- `track.stop()`. -/
def MediaStreamTrack.stopTrack (t : MediaStreamTrack) : MediaStreamTrack :=
  { t with stopped := true }

/-- `stream.getTracks().forEach(track => track.stop())`. -/
def MediaStream.stopAllTracks (s : MediaStream) : MediaStream :=
  { s with tracks := s.tracks.map MediaStreamTrack.stopTrack }

/-- `stop()`: halts every track of every handle in the stream list; the
list itself is left in place. -/
def Webcam.stop (w : Webcam) : Webcam :=
  { w with streamList := w.streamList.map MediaStream.stopAllTracks }

/-- `info(devices)`: the enumeration result is the external input; the
method filters it via `getVideoInputs` and resolves with the stored
list. -/
def Webcam.info (w : Webcam) (devices : List MediaDeviceInfo) :
    Webcam × List MediaDeviceInfo :=
  let w := (w.getVideoInputs devices).1
  (w, w.webcamList)

/-- `stream()` on the success path, with the stream handle granted by
`getUserMedia` as external input: append the handle, bind it to the
display target, mirror the display target when front-facing, begin
playback, and resolve with the facing mode. -/
def Webcam.stream (w : Webcam) (stream : MediaStream) : Webcam × String :=
  let w := { w with streamList := w.streamList.concat stream }
  let w := { w with webcamElement := { w.webcamElement with srcObject := some stream } }
  let w :=
    if w.facingMode = FacingMode.user then
      { w with webcamElement := { w.webcamElement with transform := "scale(-1,1)" } }
    else w
  let w := { w with webcamElement := { w.webcamElement with playing := true } }
  (w, w.facingMode.toStr)

/-- `start(startStream)` on the success path.  External inputs: the
stream granted by the initial permission request, the enumerated device
list and the stream granted to the later `stream()` call.  Stages run
strictly in source order: stop, acquire (handle pushed), enumerate and
filter, select, then stream-or-resolve. -/
def Webcam.start (w : Webcam) (startStream : Bool) (permissionStream : MediaStream)
    (devices : List MediaDeviceInfo) (mediaStream : MediaStream) : Webcam × String :=
  let w := w.stop
  let w := { w with streamList := w.streamList.concat permissionStream }
  let w := (w.info devices).1
  let w := w.selectCamera
  if startStream then w.stream mediaStream else (w, w.selectedDeviceId)

/-- `snap()`: with no canvas bound, or no obtainable 2D context, throw
"Canvas element is missing." with the state untouched; otherwise play the
optional audio cue, resize the surface to the rendered size of the display target
size, mirror the context when front-facing, clear, draw the current
frame, and return the PNG data URI. -/
def Webcam.snap (w : Webcam) : Webcam × Except String String :=
  match w.canvasElement with
  | some canvas =>
    if canvas.hasContext2d then
      let w :=
        match w.snapSoundElement with
        | some _ => { w with snapSoundElement := some { played := true } }
        | none => w
      let canvas := { canvas with height := w.webcamElement.scrollHeight }
      let canvas := { canvas with width := w.webcamElement.scrollWidth }
      let canvas :=
        if w.facingMode = FacingMode.user then
          let translated := canvas.ops.concat (CtxOp.translate canvas.width 0)
          { canvas with ops := translated.concat (CtxOp.scale (-1) 1) }
        else canvas
      let canvas :=
        { canvas with ops :=
            canvas.ops.concat (CtxOp.clearRect 0 0 canvas.width canvas.height) }
      let canvas :=
        { canvas with ops :=
            canvas.ops.concat (CtxOp.drawImage 0 0 canvas.width canvas.height) }
      let w := { w with canvasElement := some canvas }
      (w, Except.ok (canvas.toDataURL "image/png"))
    else (w, Except.error "Canvas element is missing.")
  | none => (w, Except.error "Canvas element is missing.")

/-!  Characterization lemmas shared by the claim theorems. -/

/-- The push-if loop of `getVideoInputs` is a filter on the kind marker,
relative to any accumulator. -/
theorem foldl_concat_filter (devices acc : List MediaDeviceInfo) :
    devices.foldl
        (fun a d => if d.kind = "videoinput" then a.concat d else a) acc
      = acc ++ devices.filter (fun d => decide (d.kind = "videoinput")) := by
  induction devices generalizing acc with
  | nil => simp
  | cons d rest ih =>
    simp only [List.foldl_cons, List.filter_cons, ih]
    by_cases h : d.kind = "videoinput" <;>
      simp [h, List.concat_eq_append]

/-- Full characterization of `getVideoInputs`: the stored list becomes
the filtered input, the facing mode is forced to "user" exactly when one
camera remains, all other fields are untouched, and the filtered list is
returned. -/
theorem getVideoInputs_eq (w : Webcam) (devices : List MediaDeviceInfo) :
    w.getVideoInputs devices =
      ({ w with
          webcamList := devices.filter (fun d => decide (d.kind = "videoinput"))
          facingMode :=
            if (devices.filter (fun d => decide (d.kind = "videoinput"))).length = 1
            then FacingMode.user else w.facingMode },
        devices.filter (fun d => decide (d.kind = "videoinput"))) := by
  unfold Webcam.getVideoInputs
  rw [foldl_concat_filter]
  by_cases h :
      (devices.filter (fun d => decide (d.kind = "videoinput"))).length = 1 <;>
    simp [h]

/-- The `for … break` loop of `selectCamera` returns the device id of
the first entry satisfying the label test. -/
theorem selectCameraLoop_eq_find (fm : FacingMode) (l : List MediaDeviceInfo) :
    selectCameraLoop fm l
      = (l.find? (labelMatchesFacing fm)).map MediaDeviceInfo.deviceId := by
  induction l with
  | nil => rfl
  | cons d rest ih =>
    by_cases h : labelMatchesFacing fm d = true
    · simp [selectCameraLoop, h, List.find?_cons_of_pos]
    · simp only [Bool.not_eq_true] at h
      simp [selectCameraLoop, h, List.find?_cons_of_neg, ih]

/-- Full characterization of `stream` on the success path: handle
appended, bound and played, the mirror transform written exactly when
front-facing, and the facing-mode string returned. -/
theorem stream_eq (w : Webcam) (s : MediaStream) :
    w.stream s =
      ({ w with
          streamList := w.streamList ++ [s]
          webcamElement :=
            { w.webcamElement with
                srcObject := some s
                transform :=
                  if w.facingMode = FacingMode.user then "scale(-1,1)"
                  else w.webcamElement.transform
                playing := true } },
        w.facingMode.toStr) := by
  unfold Webcam.stream
  by_cases h : w.facingMode = FacingMode.user <;>
    simp [h, List.concat_eq_append]

/-- Full characterization of `selectCamera`: the first match (in stored
order) of the current facing mode sets the selected device id; no match
leaves the whole state untouched. -/
theorem selectCamera_eq (w : Webcam) :
    w.selectCamera
      = match w.webcamList.find? (labelMatchesFacing w.facingMode) with
        | some d => { w with selectedDeviceId := d.deviceId }
        | none => w := by
  unfold Webcam.selectCamera
  rw [selectCameraLoop_eq_find]
  cases w.webcamList.find? (labelMatchesFacing w.facingMode) <;> rfl

/-!  Concrete sample data used by the witness theorems. -/

/-- A display target with both dimensions already set. -/
def sampleVideoElement : VideoElement :=
  { width := 640, height := 480, scrollWidth := 640, scrollHeight := 480,
    transform := "", srcObject := none, playing := false }

/-- A front-labelled video input device. -/
def frontCam : MediaDeviceInfo :=
  { deviceId := "front-1", label := "Front Camera", kind := "videoinput" }

/-- A back-labelled video input device. -/
def backCam : MediaDeviceInfo :=
  { deviceId := "back-1", label := "Back Camera", kind := "videoinput" }

/-- An audio input device, filtered out by `getVideoInputs`. -/
def micDev : MediaDeviceInfo :=
  { deviceId := "mic-1", label := "Microphone", kind := "audioinput" }

/-- A freshly constructed session, rear-facing, no canvas or audio cue. -/
def baseWebcam : Webcam :=
  Webcam.init sampleVideoElement FacingMode.environment none none

/-!  Claim theorems. -/

/-- C1: for every input device list, `getVideoInputs` replaces the
stored camera list with exactly the entries whose kind is "videoinput",
in their original order, returns that filtered list, and sets the facing
mode to front-facing ("user") whenever the filtered list has exactly one
entry, regardless of the facing mode held beforehand. -/
theorem getVideoInputs_filter_order_facing (w : Webcam)
    (mediaDevices : List MediaDeviceInfo) :
    (w.getVideoInputs mediaDevices).2
        = mediaDevices.filter (fun d => decide (d.kind = "videoinput"))
    ∧ (w.getVideoInputs mediaDevices).1.webcamList
        = mediaDevices.filter (fun d => decide (d.kind = "videoinput"))
    ∧ ((mediaDevices.filter (fun d => decide (d.kind = "videoinput"))).length = 1 →
        (w.getVideoInputs mediaDevices).1.facingMode = FacingMode.user) := by
  rw [getVideoInputs_eq]
  exact ⟨rfl, rfl, fun h => by simp [h]⟩

/-- Witness for C1: a two-entry device list with a single video input
forces the facing mode to "user" (from "environment") and returns the
one-camera list. -/
theorem getVideoInputs_filter_order_facing_witness :
    (baseWebcam.getVideoInputs [micDev, frontCam]).1.facingMode = FacingMode.user
    ∧ (baseWebcam.getVideoInputs [micDev, frontCam]).2 = [frontCam] := by
  refine ⟨(getVideoInputs_filter_order_facing baseWebcam [micDev, frontCam]).2.2
    (by decide), ?_⟩
  exact ((getVideoInputs_filter_order_facing baseWebcam [micDev, frontCam]).1).trans
    (by decide)

/-- C2: `getMediaConstraints` is facing-mode-keyed (with no deviceId
key) when the selected device identifier is empty, and exact-device-id
keyed (with no facingMode key) when it is non-empty; audio is `false` in
both cases. -/
theorem getMediaConstraints_keying (w : Webcam) :
    (w.selectedDeviceId = "" →
      w.getMediaConstraints =
        { video := { facingMode := some w.facingMode, deviceId := none },
          audio := false })
    ∧ (w.selectedDeviceId ≠ "" →
      w.getMediaConstraints =
        { video := { facingMode := none,
                     deviceId := some { exact := w.selectedDeviceId } },
          audio := false }) := by
  constructor <;> intro h <;> simp [Webcam.getMediaConstraints, h]

/-- Witness for C2: the fresh session is facing-mode-keyed; after a
selection the spec is exact-device-id keyed, audio `false` in both. -/
theorem getMediaConstraints_keying_witness :
    baseWebcam.getMediaConstraints =
      { video := { facingMode := some FacingMode.environment, deviceId := none },
        audio := false }
    ∧ ({ baseWebcam with selectedDeviceId := "front-1" } : Webcam).getMediaConstraints =
      { video := { facingMode := none, deviceId := some { exact := "front-1" } },
        audio := false } := by
  constructor
  · exact ((getMediaConstraints_keying baseWebcam).1 (by decide)).trans (by decide)
  · exact ((getMediaConstraints_keying
      { baseWebcam with selectedDeviceId := "front-1" }).2 (by decide)).trans
      (by decide)

/-- C10: when the filtered video-input count is not exactly one,
`getVideoInputs` leaves the facing mode unchanged; and in every case it
leaves the selected device identifier, the stream list and the element
records unchanged, touching only the stored camera list (and, in the
single-camera case, the facing mode). -/
theorem getVideoInputs_frame (w : Webcam) (mediaDevices : List MediaDeviceInfo) :
    ((mediaDevices.filter (fun d => decide (d.kind = "videoinput"))).length ≠ 1 →
        (w.getVideoInputs mediaDevices).1.facingMode = w.facingMode)
    ∧ (w.getVideoInputs mediaDevices).1.selectedDeviceId = w.selectedDeviceId
    ∧ (w.getVideoInputs mediaDevices).1.streamList = w.streamList
    ∧ (w.getVideoInputs mediaDevices).1.webcamElement = w.webcamElement
    ∧ (w.getVideoInputs mediaDevices).1.canvasElement = w.canvasElement
    ∧ (w.getVideoInputs mediaDevices).1.snapSoundElement = w.snapSoundElement
    ∧ (w.getVideoInputs mediaDevices).1.webcamList
        = mediaDevices.filter (fun d => decide (d.kind = "videoinput")) := by
  rw [getVideoInputs_eq]
  exact ⟨fun h => by simp [h], rfl, rfl, rfl, rfl, rfl, rfl⟩

/-- Witness for C10: a two-video-input list leaves the rear facing mode
in place and touches neither the selected id nor the streams. -/
theorem getVideoInputs_frame_witness :
    (baseWebcam.getVideoInputs [frontCam, backCam]).1.facingMode
        = FacingMode.environment
    ∧ (baseWebcam.getVideoInputs [frontCam, backCam]).1.selectedDeviceId = "" := by
  refine ⟨((getVideoInputs_frame baseWebcam [frontCam, backCam]).1
    (by decide)).trans (by decide), ?_⟩
  exact ((getVideoInputs_frame baseWebcam [frontCam, backCam]).2.1).trans (by decide)

/-- C3: `selectCamera` scans the stored list in order and sets the
selected device identifier to the device id of the first entry whose
lower-cased label contains "front" (facing mode "user") or "back"
(facing mode "environment"), changing nothing else; when no label
matches the whole state is left unchanged. -/
theorem selectCamera_first_label_match (w : Webcam) :
    (∀ fm d, labelMatchesFacing fm d = true ↔
        ((fm = FacingMode.user ∧ strIncludes (strToLower d.label) "front" = true)
          ∨ (fm = FacingMode.environment
              ∧ strIncludes (strToLower d.label) "back" = true)))
    ∧ (∀ d, w.webcamList.find? (labelMatchesFacing w.facingMode) = some d →
        w.selectCamera = { w with selectedDeviceId := d.deviceId })
    ∧ (w.webcamList.find? (labelMatchesFacing w.facingMode) = none →
        w.selectCamera = w) := by
  refine ⟨fun fm d => ?_, fun d h => ?_, fun h => ?_⟩
  · simp [labelMatchesFacing, Bool.or_eq_true, Bool.and_eq_true, decide_eq_true_iff]
  · rw [selectCamera_eq, h]
  · rw [selectCamera_eq, h]

/-- A front-facing session whose stored list is
`["Back Camera", "Front Camera"]`, the example of the specification. -/
def frontSearchWebcam : Webcam :=
  { baseWebcam with facingMode := FacingMode.user, webcamList := [backCam, frontCam] }

/-- Witness for C3: with facing mode "user" and stored labels
`["Back Camera", "Front Camera"]`, selection picks the device id of
"Front Camera". -/
theorem selectCamera_first_label_match_witness :
    frontSearchWebcam.selectCamera.selectedDeviceId = "front-1" := by
  have h := (selectCamera_first_label_match frontSearchWebcam).2.1 frontCam (by decide)
  rw [h]
  rfl

/-- C4: `flip` toggles the facing mode, clears the
style transform, and re-runs selection against the already-stored camera
list (under the new facing mode); it performs no enumeration (stored
list unchanged), does not stop or restart a stream (stream list, bound
source and playback flag unchanged). -/
theorem flip_toggles_and_reselects (w : Webcam) :
    w.flip.facingMode
        = (if w.facingMode = FacingMode.user then FacingMode.environment
           else FacingMode.user)
    ∧ w.flip.webcamElement.transform = ""
    ∧ w.flip.webcamList = w.webcamList
    ∧ w.flip.streamList = w.streamList
    ∧ w.flip.webcamElement.srcObject = w.webcamElement.srcObject
    ∧ w.flip.webcamElement.playing = w.webcamElement.playing
    ∧ w.flip.selectedDeviceId
        = (match w.webcamList.find? (labelMatchesFacing
              (if w.facingMode = FacingMode.user then FacingMode.environment
               else FacingMode.user)) with
           | some d => d.deviceId
           | none => w.selectedDeviceId) := by
  have hx : w.flip
      = Webcam.selectCamera
          { w with
              facingMode :=
                if w.facingMode = FacingMode.user then FacingMode.environment
                else FacingMode.user,
              webcamElement := { w.webcamElement with transform := "" } } := rfl
  rw [hx, selectCamera_eq]
  rcases hfind : w.webcamList.find? (labelMatchesFacing
      (if w.facingMode = FacingMode.user then FacingMode.environment
       else FacingMode.user)) with _ | d <;>
    simp [hfind]

/-- C5: `snap` on a session with no bound drawing surface, or one whose
2D context is unobtainable, returns the exact error "Canvas element is
missing." and leaves the whole state untouched (no audio cue, resize,
transform, clear or draw happens). -/
theorem snap_missing_canvas (w : Webcam)
    (h : w.canvasElement = none
      ∨ ∃ c, w.canvasElement = some c ∧ c.hasContext2d = false) :
    w.snap = (w, Except.error "Canvas element is missing.") := by
  unfold Webcam.snap
  rcases h with h | ⟨c, hc, hctx⟩
  · rw [h]
  · rw [hc]
    simp [hctx]

/-- Witness for C5: the canvas-less sample session gets the fixed error
and is returned unchanged. -/
theorem snap_missing_canvas_witness :
    baseWebcam.snap = (baseWebcam, Except.error "Canvas element is missing.") :=
  snap_missing_canvas baseWebcam (Or.inl rfl)

/-- Full characterization of `start` on the success path: the prior
streams are stopped first, then the permission stream is appended, the
enumeration is filtered into the stored list (forcing "user" in the
single-camera case), selection runs on the filtered list under the
updated facing mode, and finally `stream` runs or the selected id is
returned, exactly in that order. -/
theorem start_eq (w : Webcam) (b : Bool) (p m : MediaStream)
    (devices : List MediaDeviceInfo) :
    w.start b p devices m
      = (let filtered := devices.filter (fun d => decide (d.kind = "videoinput"))
         let fm1 := if filtered.length = 1 then FacingMode.user else w.facingMode
         let sel1 :=
           match filtered.find? (labelMatchesFacing fm1) with
           | some d => d.deviceId
           | none => w.selectedDeviceId
         let w4 : Webcam :=
           { w with
               streamList := w.streamList.map MediaStream.stopAllTracks ++ [p]
               webcamList := filtered
               facingMode := fm1
               selectedDeviceId := sel1 }
         if b then w4.stream m else (w4, sel1)) := by
  unfold Webcam.start Webcam.info Webcam.stop
  dsimp only []
  rw [getVideoInputs_eq, selectCamera_eq]
  simp only [List.concat_eq_append]
  rcases hfind : (devices.filter (fun d => decide (d.kind = "videoinput"))).find?
      (labelMatchesFacing
        (if (devices.filter (fun d => decide (d.kind = "videoinput"))).length = 1
         then FacingMode.user else w.facingMode)) with _ | d <;>
    simp [hfind]

/-- C7: every successful `stream` run appends the newly acquired handle
to the active-stream list (prior entries unchanged), binds it to the
display target, writes the horizontal mirror transform exactly when the
facing mode is front-facing, begins playback, and resolves with the
facing mode; the session-selection fields are untouched. -/
theorem stream_appends_binds_mirrors (w : Webcam) (s : MediaStream) :
    (w.stream s).1.streamList = w.streamList ++ [s]
    ∧ (w.stream s).1.webcamElement.srcObject = some s
    ∧ (w.stream s).1.webcamElement.playing = true
    ∧ (w.stream s).1.webcamElement.transform
        = (if w.facingMode = FacingMode.user then "scale(-1,1)"
           else w.webcamElement.transform)
    ∧ (w.stream s).2 = w.facingMode.toStr
    ∧ (w.stream s).1.facingMode = w.facingMode
    ∧ (w.stream s).1.webcamList = w.webcamList
    ∧ (w.stream s).1.selectedDeviceId = w.selectedDeviceId := by
  rw [stream_eq]
  exact ⟨rfl, rfl, rfl, rfl, rfl, rfl, rfl, rfl⟩

/-- Stopping a track twice is the same as stopping it once. -/
theorem stopTrack_idem (t : MediaStreamTrack) :
    t.stopTrack.stopTrack = t.stopTrack := rfl

/-- Stopping all tracks of a handle twice is the same as doing it once. -/
theorem stopAllTracks_idem (s : MediaStream) :
    s.stopAllTracks.stopAllTracks = s.stopAllTracks := by
  simp [MediaStream.stopAllTracks, List.map_map]
  intro t _
  rfl

/-- C8: `stop` halts every track of every handle in the active-stream
list and changes nothing else: the list keeps its length and its handles
(each merely has its tracks halted), every other session field is
untouched, and a second `stop` with no new streams is a no-op. -/
theorem stop_halts_all_and_frames (w : Webcam) :
    w.stop.streamList = w.streamList.map MediaStream.stopAllTracks
    ∧ w.stop.streamList.length = w.streamList.length
    ∧ (∀ s, s ∈ w.stop.streamList → ∀ t, t ∈ s.tracks → t.stopped = true)
    ∧ w.stop.facingMode = w.facingMode
    ∧ w.stop.webcamList = w.webcamList
    ∧ w.stop.selectedDeviceId = w.selectedDeviceId
    ∧ w.stop.webcamElement = w.webcamElement
    ∧ w.stop.canvasElement = w.canvasElement
    ∧ w.stop.snapSoundElement = w.snapSoundElement
    ∧ w.stop.stop = w.stop := by
  refine ⟨rfl, by simp [Webcam.stop], ?_, rfl, rfl, rfl, rfl, rfl, rfl, ?_⟩
  · intro s hs t ht
    rcases List.mem_map.mp hs with ⟨s₀, _, rfl⟩
    rcases List.mem_map.mp ht with ⟨t₀, _, rfl⟩
    rfl
  · show ({ w with streamList :=
        (w.streamList.map MediaStream.stopAllTracks).map MediaStream.stopAllTracks } : Webcam)
      = { w with streamList := w.streamList.map MediaStream.stopAllTracks }
    rw [List.map_map]
    have hmap : w.streamList.map (MediaStream.stopAllTracks ∘ MediaStream.stopAllTracks)
        = w.streamList.map MediaStream.stopAllTracks :=
      List.map_congr_left fun s _ => stopAllTracks_idem s
    rw [hmap]

/-- A live track, stream and streaming session for the C8 witness. -/
def liveStream : MediaStream :=
  { streamId := 3, tracks := [{ trackId := 7, stopped := false }] }

/-- Session holding one live stream handle. -/
def streamingWebcam : Webcam :=
  { baseWebcam with streamList := [liveStream] }

/-- Witness for C8: on the one-live-stream session, the track of the stopped handle is halted and a second `stop` changes nothing. -/
theorem stop_halts_all_and_frames_witness :
    ({ trackId := 7, stopped := true } : MediaStreamTrack).stopped = true
    ∧ streamingWebcam.stop.stop = streamingWebcam.stop := by
  constructor
  · exact (stop_halts_all_and_frames streamingWebcam).2.2.1
      { streamId := 3, tracks := [{ trackId := 7, stopped := true }] } (by decide)
      { trackId := 7, stopped := true } (by decide)
  · exact (stop_halts_all_and_frames streamingWebcam).2.2.2.2.2.2.2.2.2

/-- C6: on every successful run, `start false` resolves with the
post-selection device identifier (the prior one, possibly empty, when no
label matched) and leaves the display target wholly untouched (no
binding, no playback), while `start true` resolves with the active
facing-mode string after binding the freshly acquired stream and
beginning playback; the stream list, stored list, selection and facing
mode of the final state exhibit the stage order stop, acquire,
enumerate-and-filter, select, then stream-or-resolve. -/
theorem start_resolution_and_stage_order (w : Webcam)
    (permissionStream mediaStream : MediaStream) (devices : List MediaDeviceInfo) :
    (w.start false permissionStream devices mediaStream).2
        = (match (devices.filter (fun d => decide (d.kind = "videoinput"))).find?
              (labelMatchesFacing
                (if (devices.filter (fun d => decide (d.kind = "videoinput"))).length = 1
                 then FacingMode.user else w.facingMode)) with
           | some d => d.deviceId
           | none => w.selectedDeviceId)
    ∧ (w.start false permissionStream devices mediaStream).1.webcamElement
        = w.webcamElement
    ∧ (w.start true permissionStream devices mediaStream).2
        = (if (devices.filter (fun d => decide (d.kind = "videoinput"))).length = 1
           then FacingMode.user else w.facingMode).toStr
    ∧ (w.start true permissionStream devices mediaStream).1.webcamElement.srcObject
        = some mediaStream
    ∧ (w.start true permissionStream devices mediaStream).1.webcamElement.playing
        = true
    ∧ (w.start false permissionStream devices mediaStream).1.streamList
        = w.streamList.map MediaStream.stopAllTracks ++ [permissionStream]
    ∧ (w.start true permissionStream devices mediaStream).1.streamList
        = w.streamList.map MediaStream.stopAllTracks
            ++ [permissionStream, mediaStream]
    ∧ (w.start false permissionStream devices mediaStream).1.webcamList
        = devices.filter (fun d => decide (d.kind = "videoinput"))
    ∧ (w.start false permissionStream devices mediaStream).1.selectedDeviceId
        = (w.start false permissionStream devices mediaStream).2
    ∧ (w.start true permissionStream devices mediaStream).1.facingMode
        = (if (devices.filter (fun d => decide (d.kind = "videoinput"))).length = 1
           then FacingMode.user else w.facingMode) := by
  simp only [start_eq, stream_eq]
  simp [List.append_assoc]

/-- One externally triggered operation on a session, with every platform
result the operation consumes supplied as explicit input. -/
inductive Op where
  | setFacing (fm : FacingMode)
  | videoInputs (devices : List MediaDeviceInfo)
  | infoOp (devices : List MediaDeviceInfo)
  | select
  | flipOp
  | startOp (startStream : Bool) (p : MediaStream)
      (devices : List MediaDeviceInfo) (m : MediaStream)
  | streamOp (s : MediaStream)
  | stopOp
  | snapOp
deriving Repr

/-- Apply one operation to the session state (discarding results). -/
def applyOp (w : Webcam) : Op → Webcam
  | Op.setFacing fm => w.setFacingMode fm
  | Op.videoInputs devices => (w.getVideoInputs devices).1
  | Op.infoOp devices => (w.info devices).1
  | Op.select => w.selectCamera
  | Op.flipOp => w.flip
  | Op.startOp b p devices m => (w.start b p devices m).1
  | Op.streamOp s => (w.stream s).1
  | Op.stopOp => w.stop
  | Op.snapOp => (w.snap).1

/-- Run a list of operations left to right from a state. -/
def runOps (w : Webcam) : List Op → Webcam
  | [] => w
  | op :: rest => runOps (applyOp w op) rest

/-- Does the camera-selection run inside `op`, started from state `w`,
match some label?  Only `selectCamera` itself, `flip` and `start` run a
selection. -/
def opMatches (w : Webcam) : Op → Bool
  | Op.select => (w.webcamList.find? (labelMatchesFacing w.facingMode)).isSome
  | Op.flipOp =>
      (w.webcamList.find? (labelMatchesFacing
        (if w.facingMode = FacingMode.user then FacingMode.environment
         else FacingMode.user))).isSome
  | Op.startOp _ _ devices _ =>
      ((devices.filter (fun d => decide (d.kind = "videoinput"))).find?
        (labelMatchesFacing
          (if (devices.filter (fun d => decide (d.kind = "videoinput"))).length = 1
           then FacingMode.user else w.facingMode))).isSome
  | _ => false

/-- Did any selection run during the op sequence match a label? -/
def runMatched (w : Webcam) : List Op → Bool
  | [] => false
  | op :: rest => opMatches w op || runMatched (applyOp w op) rest

/-- `flip` unfolded: toggle, clear the transform, then select. -/
theorem flip_eq (w : Webcam) :
    w.flip = Webcam.selectCamera
      { w with
          facingMode :=
            if w.facingMode = FacingMode.user then FacingMode.environment
            else FacingMode.user
          webcamElement := { w.webcamElement with transform := "" } } := rfl

/-- `snap` never touches the selection state. -/
theorem snap_selected_frame (w : Webcam) :
    (w.snap).1.selectedDeviceId = w.selectedDeviceId := by
  unfold Webcam.snap
  rcases hc : w.canvasElement with _ | c
  · rfl
  · by_cases hctx : c.hasContext2d = true <;>
      rcases hs : w.snapSoundElement with _ | a <;>
        by_cases hfm : w.facingMode = FacingMode.user <;>
          simp [hctx, hs, hfm]

/-- An option whose `isSome` is `false` is `none`. -/
theorem isSome_false_eq_none {α : Type} {o : Option α} (h : o.isSome = false) :
    o = none := by
  cases o
  · rfl
  · simp at h

/-- A single operation whose selection run (if any) matches no label
leaves the selected device identifier unchanged. -/
theorem applyOp_selected_frame (w : Webcam) (op : Op)
    (h : opMatches w op = false) :
    (applyOp w op).selectedDeviceId = w.selectedDeviceId := by
  cases op with
  | setFacing fm => rfl
  | videoInputs devices =>
    show ((w.getVideoInputs devices).1).selectedDeviceId = w.selectedDeviceId
    rw [getVideoInputs_eq]
  | infoOp devices =>
    show ((w.getVideoInputs devices).1).selectedDeviceId = w.selectedDeviceId
    rw [getVideoInputs_eq]
  | select =>
    have h' : (w.webcamList.find? (labelMatchesFacing w.facingMode)).isSome
        = false := h
    have hfind := isSome_false_eq_none h'
    show w.selectCamera.selectedDeviceId = w.selectedDeviceId
    rw [selectCamera_eq, hfind]
  | flipOp =>
    have h' : (w.webcamList.find? (labelMatchesFacing
        (if w.facingMode = FacingMode.user then FacingMode.environment
         else FacingMode.user))).isSome = false := h
    have hfind := isSome_false_eq_none h'
    show w.flip.selectedDeviceId = w.selectedDeviceId
    rw [flip_eq, selectCamera_eq]
    dsimp only []
    rw [hfind]
  | startOp b p devices m =>
    have h' : ((devices.filter (fun d => decide (d.kind = "videoinput"))).find?
        (labelMatchesFacing
          (if (devices.filter (fun d => decide (d.kind = "videoinput"))).length = 1
           then FacingMode.user else w.facingMode))).isSome = false := h
    have hfind := isSome_false_eq_none h'
    show ((w.start b p devices m).1).selectedDeviceId = w.selectedDeviceId
    rw [start_eq]
    cases b
    · dsimp only []
      rw [hfind]
      rfl
    · dsimp only []
      rw [stream_eq]
      dsimp only []
      rw [hfind]
      rfl
  | streamOp s =>
    show ((w.stream s).1).selectedDeviceId = w.selectedDeviceId
    rw [stream_eq]
  | stopOp => rfl
  | snapOp => exact snap_selected_frame w

/-- A run in which no selection matched leaves the selected device
identifier unchanged. -/
theorem runOps_selected_frame (ops : List Op) (w : Webcam)
    (h : runMatched w ops = false) :
    (runOps w ops).selectedDeviceId = w.selectedDeviceId := by
  induction ops generalizing w with
  | nil => rfl
  | cons op rest ih =>
    rw [runMatched] at h
    rcases Bool.or_eq_false_iff.mp h with ⟨h1, h2⟩
    show (runOps (applyOp w op) rest).selectedDeviceId = w.selectedDeviceId
    rw [ih _ h2]
    exact applyOp_selected_frame w op h1

/-- C9: in every session reachable from construction by any sequence of
operations, the selected device identifier is non-empty only if some
camera-selection run along the way successfully matched a label: it
starts empty at construction, and no operation (enumeration, flip,
stream, stop, snap, setting the facing mode, or a non-matching
selection) ever changes it. -/
theorem selected_only_after_match (videoElement : VideoElement) (fm : FacingMode)
    (c : Option CanvasElement) (a : Option AudioElement) (ops : List Op) :
    (Webcam.init videoElement fm c a).selectedDeviceId = ""
    ∧ ((runOps (Webcam.init videoElement fm c a) ops).selectedDeviceId ≠ "" →
        runMatched (Webcam.init videoElement fm c a) ops = true) := by
  refine ⟨rfl, fun h => ?_⟩
  by_contra hm
  rw [Bool.not_eq_true] at hm
  exact h ((runOps_selected_frame ops _ hm).trans rfl)

/-- Witness for C9: enumerating two cameras and then selecting (facing
mode "user") yields a non-empty identifier, so the theorem reports a
successful match in that run. -/
theorem selected_only_after_match_witness :
    runMatched (Webcam.init sampleVideoElement FacingMode.user none none)
      [Op.videoInputs [backCam, frontCam], Op.select] = true :=
  (selected_only_after_match sampleVideoElement FacingMode.user none none
    [Op.videoInputs [backCam, frontCam], Op.select]).2 (by decide)

/-- Counterexample to C6 as literally stated: from a session whose
identifier was selected by an earlier matching run (reachable by
enumerating two cameras and selecting), a later `start false` with an
empty device list matches no label in its own selection, yet resolves
with the prior identifier "front-1" rather than the empty string. -/
theorem start_false_empty_resolution_counterexample :
    ((runOps (Webcam.init sampleVideoElement FacingMode.user none none)
        [Op.videoInputs [backCam, frontCam], Op.select]).start false
          liveStream [] liveStream).2 = "front-1"
    ∧ (([] : List MediaDeviceInfo).filter
          (fun d => decide (d.kind = "videoinput"))).find?
        (labelMatchesFacing FacingMode.user) = none
    ∧ ((runOps (Webcam.init sampleVideoElement FacingMode.user none none)
        [Op.videoInputs [backCam, frontCam], Op.select]).start false
          liveStream [] liveStream).2 ≠ "" := by
  refine ⟨by decide, rfl, by decide⟩

end WebcamEasy
